import Mathlib

/-
Verification of the Neovim MCP session bridge (`src/build/neovim.js`,
`NeovimManager`).  The bridge's operations are shallowly embedded: each
remote RPC interaction (attach, eval, execute, buffer line access, …) is
modelled by an explicit input describing the remote side's answer, so each
operation becomes a pure Lean function from its arguments and that remote
environment to its result, together with the list of remote calls it issued.
-/

namespace NvimBridge

/-! ### JavaScript string primitives used by the bridge -/

/-- JS `s.startsWith(c)` for the single-character prefixes used by the
bridge (":", "!", "v"). -/
def charStartsWith (s : String) (c : Char) : Bool :=
  match s.data with
  | [] => false
  | c2 :: _ => c2 = c

/-- JS `s.substring(1)`. -/
def strDrop1 (s : String) : String :=
  String.mk (s.data.drop 1)

/-- JS `s.trim()`: strip leading and trailing whitespace. -/
def jsTrim (s : String) : String :=
  String.mk (((s.data.dropWhile Char.isWhitespace).reverse.dropWhile
    Char.isWhitespace).reverse)

/-- JS truthiness of a string: only the empty string is falsy. -/
def strTruthy (s : String) : Bool :=
  s != ""

/-- JS `s.endsWith(t)`. -/
def strEndsWith (s t : String) : Bool :=
  t.data.isSuffixOf s.data

/-- Membership of a character in a string, used for flag strings. -/
def strContainsChar (s : String) (c : Char) : Bool :=
  s.data.contains c

/-- JS `s.split('\n')` (the split used by `editLines`), via an accumulator
over the character list. -/
def splitOnCharAux (c : Char) : List Char → List Char → List String
  | [], acc => [String.mk acc.reverse]
  | x :: xs, acc =>
    if x = c then String.mk acc.reverse :: splitOnCharAux c xs []
    else splitOnCharAux c xs (x :: acc)

/-- JS `newText.split('\n')`. -/
def jsSplitNewline (s : String) : List String :=
  splitOnCharAux '\x0a' s.data []

/-- JS `s.replace(/'/g, "''")`, the quoting used around `system('...')`. -/
def escapeSingleQuotes (s : String) : String :=
  String.mk (s.data.foldr
    (fun c acc => if c = '\x27' then '\x27' :: '\x27' :: acc else c :: acc) [])

/-- JS `s.replace(/\//g, '\\/')`, the escaping used inside `%s/../../`. -/
def escapeForwardSlashes (s : String) : String :=
  String.mk (s.data.foldr
    (fun c acc => if c = '/' then '\\' :: '/' :: acc else c :: acc) [])

/-! ### The error taxonomy

`NeovimConnectionError`, `NeovimCommandError` and `NeovimValidationError`
from `neovim.js`, plus a constructor for every other (unclassified) thrown
value, so that the `catch` blocks' `instanceof` dispatch can be modelled. -/

/-- A thrown JS error, as the bridge's catch blocks classify it. -/
inductive NvimError where
  | connection (socketPath : String) (cause : String)
  | command (cmd : String) (original : String)
  | validation (msg : String)
  | other (msg : String)
deriving DecidableEq

/-- The `message` property of each error, following the constructor bodies
of the three Error subclasses. -/
def NvimError.message : NvimError → String
  | .connection p _ =>
      "Failed to connect to Neovim at " ++ p ++
        ". Is Neovim running with --listen " ++ p ++ "?"
  | .command c o => "Failed to execute command \x27" ++ c ++ "\x27: " ++ o
  | .validation m => m
  | .other m => m

/-- Test for `instanceof NeovimConnectionError`. -/
def NvimError.isConnection : NvimError → Bool
  | .connection _ _ => true
  | _ => false

/-- Test for `instanceof NeovimCommandError`. -/
def NvimError.isCommand : NvimError → Bool
  | .command _ _ => true
  | _ => false

/-- Test for `instanceof NeovimValidationError`. -/
def NvimError.isValidation : NvimError → Bool
  | .validation _ => true
  | _ => false

/-- Whether an `Except` result is a success. -/
def exceptOk {ε α : Type} : Except ε α → Bool
  | .ok _ => true
  | .error _ => false

instance {ε α : Type} [DecidableEq ε] [DecidableEq α] : DecidableEq (Except ε α) :=
  fun a b =>
    match a, b with
    | .ok x, .ok y =>
      if h : x = y then .isTrue (by rw [h]) else .isFalse (fun hc => h (Except.ok.inj hc))
    | .ok _, .error _ => .isFalse (fun hc => Except.noConfusion hc)
    | .error _, .ok _ => .isFalse (fun hc => Except.noConfusion hc)
    | .error e1, .error e2 =>
      if h : e1 = e2 then .isTrue (by rw [h]) else .isFalse (fun hc => h (Except.error.inj hc))

/-! ### Remote calls

Each outbound RPC the bridge can issue, recorded in traces so that
"no remote call was made" claims can be stated. -/

/-- One outbound call to the remote editor process. -/
inductive RemoteCall where
  | attach (socketPath : String)
  | evalSystem (escapedShellCmd : String)
  | setErrmsg
  | executeCall (cmd : String)
  | getErrmsg
  | markCmd (mark : String)
  | setCursor (line col : Nat)
deriving DecidableEq

/-! ### Connection resolver -/

/-- JS `process.env.NVIM_SOCKET_PATH || '/tmp/nvim'`: an unset variable and
the empty string both fall back to the default path. -/
def resolveSocketPath (envSocketPath : Option String) : String :=
  match envSocketPath with
  | none => "/tmp/nvim"
  | some s => if s = "" then "/tmp/nvim" else s

/-- The private `validateSocketPath`: an empty or whitespace-only path
throws `NeovimValidationError('Socket path cannot be empty')`. -/
def validateSocketPath (path : String) : Except NvimError Unit :=
  if (jsTrim path).length = 0 then
    .error (.validation "Socket path cannot be empty")
  else
    .ok ()

/-- The `connect()` method: resolve the configured path, validate it, then
`attach` to the socket; a failing attach is wrapped as
`NeovimConnectionError`.  `attachResult` is the transport's outcome; the
returned trace records the attach attempt. -/
def connect (envSocketPath : Option String) (attachResult : Except String Unit) :
    Except NvimError Unit × List RemoteCall :=
  let socketPath := resolveSocketPath envSocketPath
  match validateSocketPath socketPath with
  | .error e => (.error e, [])
  | .ok _ =>
    match attachResult with
    | .ok _ => (.ok (), [RemoteCall.attach socketPath])
    | .error cause => (.error (.connection socketPath cause), [RemoteCall.attach socketPath])

/-! ### sendCommand -/

/-- Remote-side answers consumed by `sendCommand`, one field per awaited
call that can succeed or throw. -/
structure SendEnv where
  allowShellCommands : Option String
  socketEnv : Option String
  attachResult : Except String Unit
  setVvarResult : Except NvimError Unit
  executeResult : Except NvimError String
  errmsgResult : Except NvimError String
  systemResult : Except NvimError String

/-- The catch block of `sendCommand`: `NeovimCommandError` and
`NeovimValidationError` are re-thrown unchanged, anything else is wrapped
as `NeovimCommandError(command, message)`. -/
def sendCommandCatch (cmd : String) (e : NvimError) : NvimError :=
  match e with
  | .command _ _ => e
  | .validation _ => e
  | _ => .command cmd e.message

/-- Removal of one leading colon from a command. -/
def normalizeCommand (cmd : String) : String :=
  if charStartsWith cmd ':' then strDrop1 cmd else cmd

/-- The informational result returned when shell passthrough is disabled. -/
def shellDisabledMessage : String :=
  "Shell command execution is disabled. Set ALLOW_SHELL_COMMANDS=true environment variable to enable shell commands."

/-- The try block of `sendCommand`: connect, shell gating (with the inner
shell try/catch wrapping shell failures as `NeovimCommandError`), and the
execute/errmsg protocol.  Errors escape raw; the outer catch is applied by
`sendCommand` itself. -/
def sendCommandBody (env : SendEnv) (cmd : String) :
    Except NvimError String × List RemoteCall :=
  match connect env.socketEnv env.attachResult with
  | (.error e, tr) => (.error e, tr)
  | (.ok _, tr) =>
    let normalized := normalizeCommand cmd
    if charStartsWith normalized '!' then
      if env.allowShellCommands ≠ some "true" then
        (.ok shellDisabledMessage, tr)
      else
        let shellCmd := jsTrim (strDrop1 normalized)
        if shellCmd = "" then
          (.error (.validation "Shell command cannot be empty"), tr)
        else
          let tr2 := tr ++ [RemoteCall.evalSystem (escapeSingleQuotes shellCmd)]
          match env.systemResult with
          | .ok output =>
            (if strTruthy output then .ok (jsTrim output)
             else .ok "No output from command", tr2)
          | .error e =>
            (.error (.command ("!" ++ shellCmd) e.message), tr2)
    else
      match env.setVvarResult with
      | .error e => (.error e, tr ++ [RemoteCall.setErrmsg])
      | .ok _ =>
        match env.executeResult with
        | .error e =>
          (.error e, tr ++ [RemoteCall.setErrmsg, RemoteCall.executeCall normalized])
        | .ok output =>
          let tr3 := tr ++ [RemoteCall.setErrmsg, RemoteCall.executeCall normalized,
            RemoteCall.getErrmsg]
          match env.errmsgResult with
          | .error e => (.error e, tr3)
          | .ok vimerr =>
            if strTruthy vimerr then
              (.error (.command normalized vimerr), tr3)
            else
              (if strTruthy output then .ok (jsTrim output)
               else .ok "Command executed (no output)", tr3)

/-- The `sendCommand` method: the empty-command validation, then the try
block with the catch block applied to whatever it throws. -/
def sendCommand (env : SendEnv) (cmd : String) :
    Except NvimError String × List RemoteCall :=
  if (jsTrim cmd).length = 0 then
    (.error (.validation "Command cannot be empty"), [])
  else
    let body := sendCommandBody env cmd
    (Except.mapError (sendCommandCatch cmd) body.1, body.2)

/-! ### editLines and buffer reads -/

/-- Semantics of `nvim_buf_set_lines`: replace the line range `[s, e)` by
`repl`; a Neovim buffer never becomes empty, so deleting every line leaves
one empty line behind. -/
def nvimSetLines (buf : List String) (s e : Nat) (repl : List String) : List String :=
  let r := buf.take s ++ repl ++ buf.drop e
  if r = [] then [""] else r

/-- The `editLines` method.  `buffer.remove(0, n, true)` and
`buffer.insert(lines, i)` are `nvim_buf_set_lines` with an empty
replacement, resp. an empty range; `buffer.replace(lines, i)` overwrites
`lines.length` lines starting at `i`.  Every failure is swallowed by the
catch block, which returns the string shown, leaving the buffer as it was
at the failure point (here: connection failure, before any edit). -/
def editLines (conn : Except NvimError Unit) (buf : List String)
    (startLine : Nat) (mode : String) (newText : String) :
    Except NvimError String × List String :=
  match conn with
  | .error _ => (.ok "Error editing lines", buf)
  | .ok _ =>
    let splitByLines := jsSplitNewline newText
    if mode = "replaceAll" then
      let cleared := nvimSetLines buf 0 buf.length []
      (.ok "Buffer completely replaced", nvimSetLines cleared 0 0 splitByLines)
    else if mode = "replace" then
      (.ok "Lines replaced successfully",
       nvimSetLines buf (startLine - 1) (startLine - 1 + splitByLines.length) splitByLines)
    else if mode = "insert" then
      (.ok "Lines inserted successfully",
       nvimSetLines buf (startLine - 1) (startLine - 1) splitByLines)
    else
      (.ok "Invalid mode specified", buf)

/-- Remote-side answers consumed by `getBufferContents`: the enumerable
buffers with their names and lines, the current buffer's lines, and an
optional failure injected into the line read. -/
structure BufEnv where
  socketEnv : Option String
  attachResult : Except String Unit
  buffers : List (String × List String)
  current : List String
  readFail : Option NvimError

/-- Buffer lookup by exact name or name suffix, in enumeration order. -/
def findBufferByName (buffers : List (String × List String)) (filename : String) :
    Option (String × List String) :=
  buffers.find? (fun b => b.1 == filename || strEndsWith b.1 filename)

/-- The 1-based line-number map built from a line array. -/
def lineMap (lines : List String) : List (Nat × String) :=
  lines.enum.map (fun p => (p.1 + 1, p.2))

/-- The try block of `getBufferContents`: connect, optionally find a
named buffer (throwing `NeovimValidationError` when absent), and read the
lines into the 1-based map.  Errors escape raw. -/
def getBufferContentsBody (env : BufEnv) (filename : Option String) :
    Except NvimError (List (Nat × String)) :=
  match (connect env.socketEnv env.attachResult).1 with
  | .error e => .error e
  | .ok _ =>
    match filename with
    | some f =>
      match findBufferByName env.buffers f with
      | none => .error (.validation ("Buffer not found: " ++ f))
      | some b =>
        match env.readFail with
        | some e => .error e
        | none => .ok (lineMap b.2)
    | none =>
      match env.readFail with
      | some e => .error e
      | none => .ok (lineMap env.current)

/-- The `getBufferContents` method: the try block with the catch block
that re-throws `NeovimValidationError` and converts every other failure
into an empty map. -/
def getBufferContents (env : BufEnv) (filename : Option String) :
    Except NvimError (List (Nat × String)) :=
  match getBufferContentsBody env filename with
  | .error e => if e.isValidation then .error e else .ok []
  | .ok m => .ok m

/-! ### setMark and mark read-back -/

/-- Mark-relevant editor state.  `cursor` uses the
`nvim_win_get_cursor` / `nvim_win_set_cursor` convention (1-based line,
0-based column); `marks` stores per mark the `getpos` answer
(1-based line, 1-based column), with `(0, 0)` meaning unset. -/
structure MarkState where
  cursor : Nat × Nat
  marks : Char → Nat × Nat

/-- The regex test `/^[a-z]$/.test(mark)`. -/
def isValidMarkName (mark : String) : Bool :=
  match mark.data with
  | [c] => 'a' ≤ c && c ≤ 'z'
  | _ => false

/-- Effect of the ex command `:mark m`: the mark is placed at the current
cursor line, column 0 — so `getpos` reports `(cursor line, 1)`.  The
requested position plays no part here. -/
def markCmdEffect (st : MarkState) (m : Char) : MarkState :=
  { st with marks := fun c => if c = m then (st.cursor.1, 1) else st.marks c }

/-- The `setMark` method: validate the name (returning a plain string on
failure, with no remote call), connect, issue `:mark m` at the current
cursor position, and only afterwards move the cursor to `(line, col)`. -/
def setMark (envSocketPath : Option String) (attachResult : Except String Unit)
    (st : MarkState) (mark : String) (line col : Nat) :
    Except NvimError String × MarkState × List RemoteCall :=
  if isValidMarkName mark = false then
    (.ok "Invalid mark name (must be a-z)", st, [])
  else
    match connect envSocketPath attachResult with
    | (.error _, tr) => (.ok "Error setting mark", st, tr)
    | (.ok _, tr) =>
      let c := mark.data.headD 'a'
      let moved : MarkState := { markCmdEffect st c with cursor := (line, col) }
      (.ok ("Mark " ++ mark ++ " set at line " ++ toString line ++ ", column " ++ toString col),
       moved, tr ++ [RemoteCall.markCmd mark, RemoteCall.setCursor line col])

/-- Reading one mark back the way `getNeovimStatus` does: `getpos("'m")`,
kept only when both reported coordinates are positive. -/
def readMark (st : MarkState) (m : Char) : Option (Nat × Nat) :=
  let p := st.marks m
  if 0 < p.1 && 0 < p.2 then some p else none

/-! ### getNeovimStatus -/

/-- Remote-side answers consumed by `getNeovimStatus`.  `coreResult`
covers the mandatory lookups (window, cursor, mode, buffer, layout, tab,
cwd, buffer name): a failure there reaches the outer catch block.  Each
ancillary lookup has its own field and may fail independently. -/
structure StatusEnv where
  coreResult : Except NvimError Unit
  cursor : Nat × Nat
  modeStr : String
  fileName : String
  layoutJson : String
  currentTab : Nat
  cwd : String
  markPos : Char → Except Unit (Nat × Nat)
  regContent : String → Except Unit String
  lspClients : Except Unit (List String)
  pluginFlags : Except Unit (Bool × Bool × Bool × Bool)
  visualLua : Except Unit String
  visualFallback : Except Unit String

/-- The composite status record built by `getNeovimStatus`. -/
structure NeovimStatus where
  cursorPosition : Nat × Nat
  mode : String
  visualSelection : String
  fileName : String
  windowLayout : String
  currentTab : Nat
  marks : List (Char × (Nat × Nat))
  registers : List (String × String)
  cwd : String
  lspInfo : String
  pluginInfo : String
deriving DecidableEq

/-- The a-z mark loop: each `getpos` failure is skipped, and only marks
with both coordinates positive are kept. -/
def statusMarks (markPos : Char → Except Unit (Nat × Nat)) :
    List (Char × (Nat × Nat)) :=
  "abcdefghijklmnopqrstuvwxyz".data.foldr (fun c acc =>
    match markPos c with
    | .ok p => if 0 < p.1 && 0 < p.2 then (c, p) :: acc else acc
    | .error _ => acc) []

/-- The register names iterated by the status loop: a-z, the unnamed
register, and 0-9. -/
def registerNames : List String :=
  ("abcdefghijklmnopqrstuvwxyz".data.map (fun c => String.mk [c])) ++ ["\x22"] ++
    ((List.range 10).map (fun n => toString n))

/-- The register loop: each `getreg` failure is skipped, and only
registers with non-whitespace content are kept. -/
def statusRegisters (regContent : String → Except Unit String) :
    List (String × String) :=
  registerNames.foldr (fun r acc =>
    match regContent r with
    | .ok content =>
      if 0 < (jsTrim content).length then (r, content) :: acc else acc
    | .error _ => acc) []

/-- The LSP probe: a list of client names on success (empty list giving
the explicit no-clients text), the unavailable marker on failure. -/
def lspInfoOf (r : Except Unit (List String)) : String :=
  match r with
  | .ok clients =>
    if clients.length > 0 then
      "Active LSP clients: " ++ String.intercalate ", " clients
    else
      "No active LSP clients"
  | .error _ => "LSP information unavailable"

/-- The plugin probe: four existence flags on success, the unavailable
marker on failure. -/
def pluginInfoOf (r : Except Unit (Bool × Bool × Bool × Bool)) : String :=
  match r with
  | .ok f =>
    let plugins :=
      (if f.1 then ["LSP"] else []) ++ (if f.2.1 then ["Telescope"] else []) ++
        (if f.2.2.1 then ["TreeSitter"] else []) ++ (if f.2.2.2 then ["Completion"] else [])
    if plugins.length > 0 then
      "Detected plugins: " ++ String.intercalate ", " plugins
    else
      "No common plugins detected"
  | .error _ => "Plugin information unavailable"

/-- The visual-selection extraction: only attempted when the mode string
starts with `v`; the Lua route is tried first, then the
`getpos`/`getline` fallback, and a final failure degrades to the empty
string. -/
def visualSelectionOf (modeStr : String) (lua fb : Except Unit String) : String :=
  if charStartsWith modeStr 'v' then
    match lua with
    | .ok s => s
    | .error _ =>
      match fb with
      | .ok s => s
      | .error _ => ""
  else ""

/-- The status record assembled once every core lookup has succeeded. -/
def buildStatus (env : StatusEnv) : NeovimStatus :=
  { cursorPosition := env.cursor
    mode := env.modeStr
    visualSelection := visualSelectionOf env.modeStr env.visualLua env.visualFallback
    fileName := env.fileName
    windowLayout := env.layoutJson
    currentTab := env.currentTab
    marks := statusMarks env.markPos
    registers := statusRegisters env.regContent
    cwd := env.cwd
    lspInfo := lspInfoOf env.lspClients
    pluginInfo := pluginInfoOf env.pluginFlags }

/-- The `getNeovimStatus` method: a failing core lookup reaches the outer
catch block, which returns the plain error string; otherwise the composite
status record is returned. -/
def getNeovimStatus (env : StatusEnv) : Sum String NeovimStatus :=
  match env.coreResult with
  | .error _ => Sum.inl "Error getting Neovim status"
  | .ok _ => Sum.inr (buildStatus env)

/-! ### searchInBuffer and searchAndReplace -/

/-- JS `s.replace(/"/g, '\\"')`, used inside the `searchcount` expression. -/
def escapeDoubleQuotes (s : String) : String :=
  String.mk (s.data.foldr
    (fun c acc => if c = '\x22' then '\\' :: '\x22' :: acc else c :: acc) [])

/-- Remote-side answers consumed by `searchInBuffer`: the option set, the
`searchcount` evaluation (total, incomplete) and the cursor move to the
first match. -/
structure SearchEnv where
  socketEnv : Option String
  attachResult : Except String Unit
  setOptionResult : Except NvimError Unit
  searchcountResult : Except NvimError (Nat × Bool)
  moveResult : Except NvimError Unit

/-- The `searchInBuffer` method: validate the pattern, connect, apply the
word-boundary wrapper, set the case option, count matches — a zero total
is a successful "no matches" result — and otherwise move to the first
match.  The catch block wraps every failure as
`NeovimCommandError('search for <pattern>', message)`. -/
def searchInBuffer (env : SearchEnv) (pattern : String)
    (ignoreCase wholeWord : Bool) : Except NvimError String × List String :=
  if (jsTrim pattern).length = 0 then
    (.error (.validation "Search pattern cannot be empty"), [])
  else
    let searchPattern := if wholeWord then "\\<" ++ pattern ++ "\\>" else pattern
    let optionCmd := if ignoreCase then "set ignorecase" else "set noignorecase"
    let countExpr := "searchcount(\x7b\x22pattern\x22: \x22" ++
      escapeDoubleQuotes searchPattern ++ "\x22, \x22maxcount\x22: 100\x7d)"
    match (connect env.socketEnv env.attachResult).1 with
    | .error e =>
      (.error (.command ("search for " ++ pattern) e.message), [])
    | .ok _ =>
      match env.setOptionResult with
      | .error e =>
        (.error (.command ("search for " ++ pattern) e.message), [optionCmd])
      | .ok _ =>
        match env.searchcountResult with
        | .error e =>
          (.error (.command ("search for " ++ pattern) e.message), [optionCmd, countExpr])
        | .ok (total, incomplete) =>
          if total = 0 then
            (.ok ("No matches found for: " ++ pattern), [optionCmd, countExpr])
          else
            match env.moveResult with
            | .error e =>
              (.error (.command ("search for " ++ pattern) e.message),
               [optionCmd, countExpr, "/" ++ searchPattern])
            | .ok _ =>
              (.ok ("Found " ++ toString total ++ " matches for: " ++ pattern ++
                 (if incomplete then " (showing first 100)" else "")),
               [optionCmd, countExpr, "/" ++ searchPattern])

/-- The flag string of the substitute command: `g`, `i`, `c` appended in
that order when the corresponding option is set. -/
def substituteFlags (global ignoreCase confirm : Bool) : String :=
  (if global then "g" else "") ++ (if ignoreCase then "i" else "") ++
    (if confirm then "c" else "")

/-- The single substitute command composed by `searchAndReplace`. -/
def substituteCommand (pattern replacement : String)
    (global ignoreCase confirm : Bool) : String :=
  "%s/" ++ escapeForwardSlashes pattern ++ "/" ++ escapeForwardSlashes replacement ++
    "/" ++ substituteFlags global ignoreCase confirm

/-- Remote-side answers consumed by `searchAndReplace`. -/
structure ReplaceEnv where
  socketEnv : Option String
  attachResult : Except String Unit
  executeResult : Except NvimError String

/-- The `searchAndReplace` method: validate the pattern, connect, compose
one substitute command and execute it; the catch block wraps every
failure as `NeovimCommandError('substitute <p> -> <r>', message)`. -/
def searchAndReplace (env : ReplaceEnv) (pattern replacement : String)
    (global ignoreCase confirm : Bool) :
    Except NvimError String × List RemoteCall :=
  if (jsTrim pattern).length = 0 then
    (.error (.validation "Search pattern cannot be empty"), [])
  else
    match connect env.socketEnv env.attachResult with
    | (.error e, tr) =>
      (.error (.command ("substitute " ++ pattern ++ " -> " ++ replacement) e.message), tr)
    | (.ok _, tr) =>
      let cmd := substituteCommand pattern replacement global ignoreCase confirm
      match env.executeResult with
      | .error e =>
        (.error (.command ("substitute " ++ pattern ++ " -> " ++ replacement) e.message),
         tr ++ [RemoteCall.executeCall cmd])
      | .ok result =>
        (if strTruthy result then .ok (jsTrim result)
         else .ok "Search and replace completed",
         tr ++ [RemoteCall.executeCall cmd])

/-- The commands passed to `execute` within a remote-call trace. -/
def executeCalls (tr : List RemoteCall) : List String :=
  tr.foldr (fun c acc =>
    match c with
    | .executeCall s => s :: acc
    | _ => acc) []

/-! ### Concrete environments used in the theorems below -/

/-- An environment whose transport attach is refused. -/
def sendEnvConnFail : SendEnv :=
  { allowShellCommands := none
    socketEnv := none
    attachResult := .error "ECONNREFUSED"
    setVvarResult := .ok ()
    executeResult := .ok ""
    errmsgResult := .ok ""
    systemResult := .ok "" }

/-- An environment with shell passthrough disabled and a healthy remote. -/
def sendEnvShellOff : SendEnv :=
  { allowShellCommands := none
    socketEnv := none
    attachResult := .ok ()
    setVvarResult := .ok ()
    executeResult := .ok ""
    errmsgResult := .ok ""
    systemResult := .ok "out" }

/-- A whitespace-only configured socket path with a healthy transport. -/
def bufEnvWhitespacePath : BufEnv :=
  { socketEnv := some " "
    attachResult := .ok ()
    buffers := []
    current := []
    readFail := none }

/-- A healthy buffer environment holding the buffer produced by the
replaceAll round-trip example. -/
def bufEnvAfterReplaceAll : BufEnv :=
  { socketEnv := none
    attachResult := .ok ()
    buffers := []
    current := ["a", ""]
    readFail := none }

/-- A healthy buffer environment whose line read fails unclassified. -/
def bufEnvReadFail : BufEnv :=
  { socketEnv := none
    attachResult := .ok ()
    buffers := []
    current := ["x"]
    readFail := some (.other "channel closed") }

/-- A buffer environment whose transport attach is refused. -/
def bufEnvConnFail : BufEnv :=
  { socketEnv := none
    attachResult := .error "ECONNREFUSED"
    buffers := []
    current := []
    readFail := none }

/-- A mark state with the cursor at line 5, column 7 and no marks set. -/
def markState0 : MarkState :=
  { cursor := (5, 7), marks := fun _ => (0, 0) }

/-- A status environment whose core lookups succeed while every ancillary
lookup (marks, registers, LSP clients, plugin probes) fails. -/
def statusEnvAncillaryFail : StatusEnv :=
  { coreResult := .ok ()
    cursor := (1, 0)
    modeStr := "n"
    fileName := "/tmp/file.txt"
    layoutJson := "[]"
    currentTab := 1
    cwd := "/tmp"
    markPos := fun _ => .error ()
    regContent := fun _ => .error ()
    lspClients := .error ()
    pluginFlags := .error ()
    visualLua := .error ()
    visualFallback := .error () }

/-- A search environment with a healthy remote reporting zero matches. -/
def searchEnvNoMatches : SearchEnv :=
  { socketEnv := none
    attachResult := .ok ()
    setOptionResult := .ok ()
    searchcountResult := .ok (0, false)
    moveResult := .ok () }

/-- A replace environment with a healthy remote. -/
def replaceEnvOk : ReplaceEnv :=
  { socketEnv := none
    attachResult := .ok ()
    executeResult := .ok "2 substitutions on 2 lines" }

/-- The wrapped error produced when `sendCommand` catches a connection
failure while running the command `write`. -/
def wrappedConnError : NvimError :=
  .command "write" (NvimError.connection "/tmp/nvim" "ECONNREFUSED").message

/-! ### Shared lemmas -/

/-- A connection attempt issues at most the attach call. -/
theorem connect_trace_cases (env : Option String) (a : Except String Unit) :
    (connect env a).2 = [] ∨
      (connect env a).2 = [RemoteCall.attach (resolveSocketPath env)] := by
  unfold connect
  rcases hv : validateSocketPath (resolveSocketPath env) with e | u <;>
    cases a <;> simp [hv]

/-! ### C3: connect error classification -/

/-- C3 counterexample: with the configured socket path `" "` the claim
says `connect` fails with `ConnectionError`, but the code throws
`NeovimValidationError('Socket path cannot be empty')` instead. -/
theorem connect_whitespace_path_not_connection_error :
    (connect (some " ") (.ok ())).1 = .error (.validation "Socket path cannot be empty") ∧
    (match (connect (some " ") (.ok ())).1 with
     | .error e => e.isConnection
     | .ok _ => false) = false := by
  decide

/-- C3 (amended): connect fails with `ValidationError` when the resolved
socket path is empty or whitespace (before any transport attempt), and
with `ConnectionError` naming the endpoint when the transport cannot
reach it. -/
theorem connect_error_classification (env : Option String) (a : Except String Unit) :
    ((jsTrim (resolveSocketPath env)).length = 0 →
      connect env a = (.error (.validation "Socket path cannot be empty"), [])) ∧
    (∀ cause, (jsTrim (resolveSocketPath env)).length ≠ 0 → a = .error cause →
      (connect env a).1 = .error (.connection (resolveSocketPath env) cause)) := by
  constructor
  · intro h
    unfold connect validateSocketPath
    simp [h]
  · intro cause h ha
    unfold connect validateSocketPath
    simp [h, ha]

/-- C3 witness: both halves of the classification at concrete inputs. -/
theorem connect_error_classification_witness :
    connect (some " ") (.ok ()) = (.error (.validation "Socket path cannot be empty"), []) ∧
    (connect none (.error "ECONNREFUSED")).1 =
      .error (.connection "/tmp/nvim" "ECONNREFUSED") := by
  refine ⟨(connect_error_classification (some " ") (.ok ())).1 (by decide), ?_⟩
  have h := (connect_error_classification none (.error "ECONNREFUSED")).2
    "ECONNREFUSED" (by decide) rfl
  simpa using h

/-- Whatever the catch block of `sendCommand` rethrows is a CommandError
or a ValidationError. -/
theorem sendCommandCatch_kinds (cmd : String) (x : NvimError) :
    (sendCommandCatch cmd x).isCommand = true ∨ (sendCommandCatch cmd x).isValidation = true := by
  cases x <;> simp [sendCommandCatch, NvimError.isCommand, NvimError.isValidation]

/-- Every error escaping `sendCommand` is a CommandError or a
ValidationError. -/
theorem sendCommand_error_kinds (env : SendEnv) (cmd : String) (e : NvimError)
    (he : (sendCommand env cmd).1 = .error e) :
    e.isCommand = true ∨ e.isValidation = true := by
  unfold sendCommand at he
  split at he
  · simp only [Except.error.injEq] at he
    subst he
    exact Or.inr rfl
  · simp only at he
    rcases hb : (sendCommandBody env cmd).1 with eb | s
    · rw [hb] at he
      simp only [Except.mapError, Except.error.injEq] at he
      subst he
      exact sendCommandCatch_kinds cmd eb
    · rw [hb] at he
      simp [Except.mapError] at he

/-! ### C2: outer error normalization -/

/-- C2 counterexample: a `ConnectionError` raised inside `sendCommand` is
not re-raised unchanged — the catch block recognizes only CommandError and
ValidationError, so the connection failure is wrapped as a CommandError. -/
theorem sendCommand_wraps_connection_error :
    (sendCommand sendEnvConnFail "write").1 = .error wrappedConnError ∧
    wrappedConnError.isConnection = false ∧
    (match (sendCommand sendEnvConnFail "write").1 with
     | .error e => e.isConnection
     | .ok _ => true) = false := by
  decide

/-- C2 (amended): `sendCommand` re-raises CommandError and ValidationError
unchanged and wraps every other exception — ConnectionError included — as
a CommandError carrying the command text and the underlying message, so
every error escaping it is one of those two kinds; `editLines` instead
swallows failures entirely and returns a plain result string, so no raw
exception escapes either operation. -/
theorem sendCommand_error_normalization (env : SendEnv) (cmd : String) :
    (∀ e, (sendCommand env cmd).1 = .error e →
      e.isCommand = true ∨ e.isValidation = true) ∧
    (∀ e, e.isCommand = true → sendCommandCatch cmd e = e) ∧
    (∀ e, e.isValidation = true → sendCommandCatch cmd e = e) ∧
    (∀ conn buf startLine mode newText,
      exceptOk (editLines conn buf startLine mode newText).1 = true) := by
  refine ⟨fun e he => sendCommand_error_kinds env cmd e he, ?_, ?_, ?_⟩
  · intro e h
    cases e <;> simp_all [sendCommandCatch, NvimError.isCommand]
  · intro e h
    cases e <;> simp_all [sendCommandCatch, NvimError.isValidation]
  · intro conn buf startLine mode newText
    cases conn with
    | error e => rfl
    | ok u =>
      unfold editLines
      simp only
      split_ifs <;> rfl

/-- C2 witness: each conjunct of the normalization at a concrete input. -/
theorem sendCommand_error_normalization_witness :
    (wrappedConnError.isCommand = true ∨ wrappedConnError.isValidation = true) ∧
    sendCommandCatch "write" (.command "w" "m") = .command "w" "m" ∧
    sendCommandCatch "write" (.validation "m") = .validation "m" ∧
    exceptOk (editLines (.error (.other "boom")) ["x"] 1 "insert" "ab").1 = true := by
  have h := sendCommand_error_normalization sendEnvConnFail "write"
  exact ⟨h.1 wrappedConnError (by decide), h.2.1 _ (by decide), h.2.2.1 _ (by decide),
    h.2.2.2 (.error (.other "boom")) ["x"] 1 "insert" "ab"⟩

/-! ### C5: shell passthrough gating -/

/-- With shell passthrough disabled, the try block of `sendCommand` never
issues a shell evaluation call. -/
theorem sendCommandBody_no_shell_when_disabled (env : SendEnv) (cmd : String)
    (hflag : env.allowShellCommands ≠ some "true") :
    ∀ s, RemoteCall.evalSystem s ∉ (sendCommandBody env cmd).2 := by
  intro s hs
  have htr := connect_trace_cases env.socketEnv env.attachResult
  rcases hc : connect env.socketEnv env.attachResult with ⟨cr, tr⟩
  rw [hc] at htr
  simp only at htr
  unfold sendCommandBody at hs
  rw [hc] at hs
  cases cr with
  | error e =>
    simp only at hs
    rcases htr with h | h <;> (subst h; simp_all)
  | ok u =>
    simp only at hs
    iterate 8 (all_goals (try (split at hs)))
    all_goals (rcases htr with h | h <;> (subst h; simp_all))

/-- C5: when `ALLOW_SHELL_COMMANDS` is not `'true'`, no shell command is
ever forwarded to the remote editor, and a `!`-prefixed command (with a
reachable remote) returns the explicit disabled-message result. -/
theorem sendCommand_shell_gate (env : SendEnv) (cmd : String)
    (hflag : env.allowShellCommands ≠ some "true") :
    (∀ s, RemoteCall.evalSystem s ∉ (sendCommand env cmd).2) ∧
    (charStartsWith (normalizeCommand cmd) '!' = true →
      (jsTrim cmd).length ≠ 0 →
      (connect env.socketEnv env.attachResult).1 = .ok () →
      (sendCommand env cmd).1 = .ok shellDisabledMessage) := by
  constructor
  · intro s hs
    unfold sendCommand at hs
    split at hs
    · simp at hs
    · simp only at hs
      exact sendCommandBody_no_shell_when_disabled env cmd hflag s hs
  · intro hbang hne hconn
    unfold sendCommand
    rw [if_neg hne]
    have hb : (sendCommandBody env cmd).1 = .ok shellDisabledMessage := by
      unfold sendCommandBody
      rcases hc : connect env.socketEnv env.attachResult with ⟨cr, tr⟩
      rw [hc] at hconn
      simp only at hconn
      subst hconn
      simp only [hbang, if_true]
      rw [if_pos hflag]
    simp only [hb]
    rfl

/-- C5 witness: the gate at the concrete command `!ls` with the flag
unset and a healthy remote. -/
theorem sendCommand_shell_gate_witness :
    (RemoteCall.evalSystem "ls" ∉ (sendCommand sendEnvShellOff "!ls").2) ∧
    (sendCommand sendEnvShellOff "!ls").1 = .ok shellDisabledMessage := by
  have h := sendCommand_shell_gate sendEnvShellOff "!ls" (by decide)
  exact ⟨h.1 "ls", h.2 (by decide) (by decide) (by decide)⟩

/-! ### C1: setMark round-trip -/

/-- C1: evaluating `setMark` at the failing input — cursor at (5, 7), no
marks set, `setMark("a", 1, 0)` — the method reports success at (1, 0),
but `:mark a` ran before the cursor move, so reading mark `a` back the
way `getNeovimStatus` does yields the pre-call cursor line (5, 1), not
the requested (1, 0). -/
theorem setMark_roundtrip_mismatch :
    (setMark none (.ok ()) markState0 "a" 1 0).1 = .ok "Mark a set at line 1, column 0" ∧
    readMark (setMark none (.ok ()) markState0 "a" 1 0).2.1 'a' = some (5, 1) ∧
    readMark (setMark none (.ok ()) markState0 "a" 1 0).2.1 'a' ≠ some (1, 0) := by
  decide

/-! ### C4: invalid mark name -/

/-- C4 counterexample: for the invalid mark name `"1"` the claim says
`setMark` fails with `ValidationError`; the code instead returns the
plain informational string as a successful result (though indeed with no
remote call). -/
theorem setMark_invalid_name_plain_string :
    (setMark none (.ok ()) markState0 "1" 1 0).1 = .ok "Invalid mark name (must be a-z)" ∧
    (setMark none (.ok ()) markState0 "1" 1 0).2.2 = [] ∧
    (match (setMark none (.ok ()) markState0 "1" 1 0).1 with
     | .error e => e.isValidation
     | .ok _ => false) = false := by
  decide

/-- C4 (amended): for every mark name not matching `[a-z]`, `setMark`
returns the informational string `Invalid mark name (must be a-z)` as a
normal result — not a `ValidationError` — before any remote call, and no
connection to the remote editor is made (the remote-call trace is
empty). -/
theorem setMark_invalid_name_no_remote_call (envS : Option String)
    (att : Except String Unit) (st : MarkState) (mark : String) (line col : Nat)
    (h : isValidMarkName mark = false) :
    (setMark envS att st mark line col).1 = .ok "Invalid mark name (must be a-z)" ∧
    (setMark envS att st mark line col).2.2 = [] := by
  unfold setMark
  rw [if_pos h]
  exact ⟨rfl, rfl⟩

/-- C4 witness: the amended behaviour at the concrete mark name `"1"`. -/
theorem setMark_invalid_name_no_remote_call_witness :
    (setMark none (.ok ()) markState0 "1" 2 3).1 = .ok "Invalid mark name (must be a-z)" ∧
    (setMark none (.ok ()) markState0 "1" 2 3).2.2 = [] :=
  setMark_invalid_name_no_remote_call none (.ok ()) markState0 "1" 2 3 (by decide)

/-! ### C6: replaceAll round-trip -/

/-- C6: evaluating the replaceAll round-trip at the failing input — buffer
`["x", "y"]`, `editLines(1, replaceAll, "a")` — deleting every line leaves
one empty line and the subsequent insert at index 0 prepends to it, so the
buffer becomes `["a", ""]` and the read-back is `{1: "a", 2: ""}`, not
exactly `{1: "a"}` as the claim requires. -/
theorem editLines_replaceAll_roundtrip_extra_line :
    (editLines (.ok ()) ["x", "y"] 1 "replaceAll" "a").2 = ["a", ""] ∧
    getBufferContents bufEnvAfterReplaceAll none = .ok [(1, "a"), (2, "")] ∧
    ([(1, "a"), (2, "")] : List (Nat × String)) ≠ [(1, "a")] := by
  decide

/-! ### C10: getBufferContents failure policy -/

/-- C10 counterexample: a whitespace-only configured socket path makes
`getBufferContents` raise `ValidationError('Socket path cannot be empty')`
— a ValidationError that is not the buffer-not-found case, instead of the
empty map the claim requires for non-buffer-not-found failures. -/
theorem getBufferContents_whitespace_path_raises :
    getBufferContents bufEnvWhitespacePath none =
      .error (.validation "Socket path cannot be empty") ∧
    getBufferContents bufEnvWhitespacePath none ≠ .ok [] := by
  decide

/-- C10 (amended): every error escaping `getBufferContents` is a
`ValidationError` (buffer-not-found, or the empty-socket-path error from
`connect`); every non-ValidationError failure — connection failure, or an
unclassified line-read failure — yields the empty map instead. -/
theorem getBufferContents_error_policy (env : BufEnv) (filename : Option String) :
    (∀ e, getBufferContents env filename = .error e → e.isValidation = true) ∧
    (∀ e, (connect env.socketEnv env.attachResult).1 = .error e →
      e.isValidation = false → getBufferContents env filename = .ok []) ∧
    (∀ e, env.readFail = some e → e.isValidation = false →
      (connect env.socketEnv env.attachResult).1 = .ok () → filename = none →
      getBufferContents env filename = .ok []) := by
  refine ⟨?_, ?_, ?_⟩
  · intro e he
    unfold getBufferContents at he
    rcases hb : getBufferContentsBody env filename with eb | m <;> rw [hb] at he
    · iterate 3 (all_goals (try (split at he)))
      all_goals simp_all
    · simp at he
  · intro e hcon hnv
    unfold getBufferContents getBufferContentsBody
    rw [hcon]
    simp [hnv]
  · intro e hrf hnv hconn hfn
    subst hfn
    unfold getBufferContents getBufferContentsBody
    rw [hconn, hrf]
    simp [hnv]

/-- C10 witness: all three parts of the policy at concrete environments. -/
theorem getBufferContents_error_policy_witness :
    NvimError.isValidation (.validation "Socket path cannot be empty") = true ∧
    getBufferContents bufEnvConnFail none = .ok [] ∧
    getBufferContents bufEnvReadFail none = .ok [] := by
  refine ⟨?_, ?_, ?_⟩
  · exact (getBufferContents_error_policy bufEnvWhitespacePath none).1 _ (by decide)
  · exact (getBufferContents_error_policy bufEnvConnFail none).2.1
      (.connection "/tmp/nvim" "ECONNREFUSED") (by decide) (by decide)
  · exact (getBufferContents_error_policy bufEnvReadFail none).2.2
      (.other "channel closed") rfl (by decide) (by decide) rfl

/-! ### C7: status aggregation degrades gracefully -/

/-- C7: whenever the core lookups succeed, `getNeovimStatus` returns a
status object even if the LSP and plugin probes both fail; each failed
ancillary field carries its explicit unavailable marker. -/
theorem getNeovimStatus_degrades_gracefully (env : StatusEnv)
    (hcore : env.coreResult = .ok ()) :
    getNeovimStatus env = Sum.inr (buildStatus env) ∧
    (env.lspClients = .error () →
      (buildStatus env).lspInfo = "LSP information unavailable") ∧
    (env.pluginFlags = .error () →
      (buildStatus env).pluginInfo = "Plugin information unavailable") := by
  refine ⟨?_, ?_, ?_⟩
  · unfold getNeovimStatus
    rw [hcore]
  · intro h
    simp [buildStatus, lspInfoOf, h]
  · intro h
    simp [buildStatus, pluginInfoOf, h]

/-- C7 witness: the environment in which every ancillary lookup fails
still produces a status object, with both unavailable markers. -/
theorem getNeovimStatus_degrades_gracefully_witness :
    getNeovimStatus statusEnvAncillaryFail = Sum.inr (buildStatus statusEnvAncillaryFail) ∧
    (buildStatus statusEnvAncillaryFail).lspInfo = "LSP information unavailable" ∧
    (buildStatus statusEnvAncillaryFail).pluginInfo = "Plugin information unavailable" := by
  have h := getNeovimStatus_degrades_gracefully statusEnvAncillaryFail rfl
  exact ⟨h.1, h.2.1 rfl, h.2.2 rfl⟩

/-! ### C8: zero-match search is a success -/

/-- C8: for a non-empty pattern with zero matches (and a reachable
remote), `searchInBuffer` returns the no-matches text as a successful
result, not an error. -/
theorem searchInBuffer_no_matches_success (env : SearchEnv) (pattern : String)
    (ic ww b : Bool)
    (hne : (jsTrim pattern).length ≠ 0)
    (hconn : (connect env.socketEnv env.attachResult).1 = .ok ())
    (hopt : env.setOptionResult = .ok ())
    (hcount : env.searchcountResult = .ok (0, b)) :
    (searchInBuffer env pattern ic ww).1 = .ok ("No matches found for: " ++ pattern) := by
  unfold searchInBuffer
  rw [if_neg hne]
  simp only [hconn, hopt, hcount]
  rfl

/-- C8 witness: the zero-match outcome at the concrete pattern
`needle`. -/
theorem searchInBuffer_no_matches_success_witness :
    (searchInBuffer searchEnvNoMatches "needle" false false).1 =
      .ok ("No matches found for: " ++ "needle") :=
  searchInBuffer_no_matches_success searchEnvNoMatches "needle" false false false
    (by decide) (by decide) rfl rfl

/-! ### C9: substitute flag composition -/

/-- Execute-call extraction distributes over trace concatenation. -/
theorem executeCalls_append (l1 l2 : List RemoteCall) :
    executeCalls (l1 ++ l2) = executeCalls l1 ++ executeCalls l2 := by
  induction l1 with
  | nil => rfl
  | cons c cs ih =>
    cases c <;> simp [executeCalls] at ih ⊢ <;> simp [ih]

/-- C9: `searchAndReplace` executes exactly one substitute command, whose
flag string contains `g` exactly when the global option is set (the
per-line all-occurrences semantics of the `g` flag being the remote
editor's). -/
theorem searchAndReplace_global_flag (env : ReplaceEnv) (pattern replacement : String)
    (g ic conf : Bool)
    (hne : (jsTrim pattern).length ≠ 0)
    (hconn : (connect env.socketEnv env.attachResult).1 = .ok ()) :
    executeCalls (searchAndReplace env pattern replacement g ic conf).2 =
      [substituteCommand pattern replacement g ic conf] ∧
    substituteCommand pattern replacement g ic conf =
      "%s/" ++ escapeForwardSlashes pattern ++ "/" ++ escapeForwardSlashes replacement ++
        "/" ++ substituteFlags g ic conf ∧
    strContainsChar (substituteFlags g ic conf) 'g' = g := by
  refine ⟨?_, rfl, ?_⟩
  · have htr := connect_trace_cases env.socketEnv env.attachResult
    rcases hc : connect env.socketEnv env.attachResult with ⟨cr, tr⟩
    rw [hc] at htr hconn
    simp only at htr hconn
    have hcr : cr = .ok () := hconn
    subst hcr
    have h0 : executeCalls tr = [] := by
      rcases htr with h | h <;> subst h <;> rfl
    unfold searchAndReplace
    rw [if_neg hne, hc]
    simp only
    rcases hex : env.executeResult with e | r <;>
      (show executeCalls
          (tr ++ [RemoteCall.executeCall (substituteCommand pattern replacement g ic conf)]) =
          [substituteCommand pattern replacement g ic conf]
       rw [executeCalls_append, h0]
       rfl)
  · cases g <;> cases ic <;> cases conf <;> decide

/-- C9 witness: the flag composition at concrete options, once with
global set and once without. -/
theorem searchAndReplace_global_flag_witness :
    executeCalls (searchAndReplace replaceEnvOk "foo" "bar" true false false).2 =
      [substituteCommand "foo" "bar" true false false] ∧
    strContainsChar (substituteFlags true false false) 'g' = true ∧
    strContainsChar (substituteFlags false true true) 'g' = false := by
  have h := searchAndReplace_global_flag replaceEnvOk "foo" "bar" true false false
    (by decide) (by decide)
  have h2 := searchAndReplace_global_flag replaceEnvOk "foo" "bar" false true true
    (by decide) (by decide)
  exact ⟨h.1, h.2.2, h2.2.2⟩

end NvimBridge
